import Mathlib

/-!
Verification of the switch-box firmware control loop (files
`switch-box-V1.5.py` and `Switch_box_V1.3.py`).

The Python program is a MicroPython firmware for a rotary encoder and two
buttons.  Interrupt handlers set pending flags (guarded by a global
`interrupt_lock` and, for the encoder, a rate limiter); a main loop drains
the flags, applies debounce windows, and emits newline-terminated ASCII
events over a UART wrapped in a health manager.

Shallow embedding conventions:
  - The global mutable state (`interrupt_lock`, the three pending flags,
    `encoder_state`, `button_state`, `stats`) becomes the record `SBState`;
    every Python function that mutates it becomes a Lean function from
    `SBState` (plus its pin/clock inputs) to `SBState`, paired with an
    `Option String` carrying the wire message handed to `safe_uart_write`
    when one is produced.
  - Clock reads (`time.ticks_us` / `time.ticks_ms`) and GPIO reads
    (`pin.value()`) are passed in as explicit arguments, since they are
    inputs from the environment.  `time.ticks_diff` is modelled exactly as
    MicroPython defines it: a signed modular difference with
    `TICKS_PERIOD = 2 ^ 30`.
  - The UART becomes the record `Uart`: a buffered inbound byte list, a
    health bit (an unhealthy UART makes `serial.write` raise), a transcript
    of successfully transmitted messages, and an instrumentation counter
    that counts invocations of the health check `ensure_uart_alive`.
  - `time.sleep_ms(5)` before a button confirmation re-read is modelled by
    taking the pin level sampled after that delay as an argument.
-/

/-- MicroPython tick counters wrap with this period (2 ^ 30). -/
def TICKS_PERIOD : Int := 1073741824

/-- Model of `time.ticks_diff(a, b)`: the signed modular difference
`((a - b + TICKS_PERIOD/2) % TICKS_PERIOD) - TICKS_PERIOD/2`, which lies in
`[-TICKS_PERIOD/2, TICKS_PERIOD/2)`. -/
def ticksDiff (a b : Int) : Int :=
  (a - b + TICKS_PERIOD / 2) % TICKS_PERIOD - TICKS_PERIOD / 2

/-- The `encoder_state` dict of the source: last observed phase-A level,
last accepted timestamp (µs), debounce window (µs), rate-limiter interrupt
counter, rate window start (ms), and the admission cap per window. -/
structure EncoderState where
  last_a : Nat
  last_time : Int
  debounce_us : Int
  interrupt_count : Nat
  last_rate_check : Int
  max_rate : Nat
  deriving DecidableEq

/-- The `button_state` dict of the source: per-button last accepted
timestamps (ms) and the shared debounce window (ms). -/
structure ButtonState where
  override_last_time : Int
  pump_last_time : Int
  debounce_ms : Int
  deriving DecidableEq

/-- The `stats` dict of the source: diagnostic counters. -/
structure Stats where
  steps : Nat
  overrides : Nat
  pump_stops : Nat
  blocked : Nat
  deriving DecidableEq

/-- The whole shared mutable state of the firmware: the interrupt lock, the
three pending flags, and the three state dicts. -/
structure SBState where
  interrupt_lock : Bool
  encoder_pending : Bool
  override_pending : Bool
  pump_pending : Bool
  encoder_state : EncoderState
  button_state : ButtonState
  stats : Stats
  deriving DecidableEq

/-- Startup state (pin snapshots and boot-time tick reads abstracted to 0):
`encoder_state`, `button_state` and `stats` exactly as initialised at the
top of both source files. -/
def initState : SBState :=
  { interrupt_lock := false
    encoder_pending := false
    override_pending := false
    pump_pending := false
    encoder_state :=
      { last_a := 0, last_time := 0, debounce_us := 1500,
        interrupt_count := 0, last_rate_check := 0, max_rate := 1000 }
    button_state :=
      { override_last_time := 0, pump_last_time := 0, debounce_ms := 50 }
    stats := { steps := 0, overrides := 0, pump_stops := 0, blocked := 0 } }

/-- `check_rate_limit()` (identical in V1.5 and V1.3).  `now` is the
`time.ticks_ms()` read at entry.  If at least 1000 ms elapsed since the
window start it zeroes the counter, restarts the window at `now` and admits;
otherwise it increments the counter and admits iff the incremented counter
is at most `max_rate`.  Returns the updated `encoder_state` and the verdict. -/
def check_rate_limit (now : Int) (es : EncoderState) : EncoderState × Bool :=
  if ticksDiff now es.last_rate_check ≥ 1000 then
    ({ es with interrupt_count := 0, last_rate_check := now }, true)
  else
    ({ es with interrupt_count := es.interrupt_count + 1 },
      decide (es.interrupt_count + 1 ≤ es.max_rate))

/-- `encoder_isr(pin)` (identical in V1.5 and V1.3).  Python evaluates
`not interrupt_lock and check_rate_limit()` left to right: when the lock is
set, `check_rate_limit` is not called and `stats['blocked']` is incremented;
otherwise the rate limiter runs (mutating `encoder_state`) and on admission
the pending flag is set, on rejection `stats['blocked']` is incremented. -/
def encoder_isr (now : Int) (s : SBState) : SBState :=
  if s.interrupt_lock then
    { s with stats := { s.stats with blocked := s.stats.blocked + 1 } }
  else
    let r := check_rate_limit now s.encoder_state
    if r.2 then
      { s with encoder_state := r.1, encoder_pending := true }
    else
      { s with encoder_state := r.1,
               stats := { s.stats with blocked := s.stats.blocked + 1 } }

/-- `override_isr(pin)` (identical in V1.5 and V1.3): sets the override
pending flag unless the interrupt lock is held. -/
def override_isr (s : SBState) : SBState :=
  if s.interrupt_lock then s else { s with override_pending := true }

/-- `pump_stop_isr(pin)` (identical in V1.5 and V1.3): sets the pump pending
flag unless the interrupt lock is held. -/
def pump_stop_isr (s : SBState) : SBState :=
  if s.interrupt_lock then s else { s with pump_pending := true }

/-- `process_encoder()` (identical in V1.5 and V1.3).  `now` is the
`time.ticks_us()` read; `a`, `b`, `m` are the levels read from `pin_a`,
`pin_b`, `pin_modifier`.  Returns the new state and the message handed to
`safe_uart_write`, if any.  Mirrors the source exactly: return if not
pending; clear the flag; return inside the debounce window; on `a == 1`
emit `+step` or `-step` (step 10 when the modifier reads 0, else 1) with a
trailing newline, bump `stats['steps']` and set `last_time := now`; in both
post-debounce branches record `last_a := a`. -/
def process_encoder (now : Int) (a b m : Nat) (s : SBState) :
    SBState × Option String :=
  if s.encoder_pending then
    let s1 := { s with encoder_pending := false }
    if ticksDiff now s1.encoder_state.last_time < s1.encoder_state.debounce_us then
      (s1, none)
    else
      if a = 1 then
        let step : Nat := if m = 0 then 10 else 1
        let msg : String :=
          if b = 0 then "+" ++ toString step else "-" ++ toString step
        ({ s1 with
            stats := { s1.stats with steps := s1.stats.steps + 1 },
            encoder_state :=
              { s1.encoder_state with last_time := now, last_a := a } },
          some (msg ++ "\n"))
      else
        ({ s1 with encoder_state := { s1.encoder_state with last_a := a } },
          none)
  else (s, none)

/-- `process_override()` (identical in V1.5 and V1.3).  `now` is the
`time.ticks_ms()` read; `pinAfter` is the level `pin_override.value()`
returns after the `time.sleep_ms(5)` confirmation delay.  Mirrors the
source: return if not pending; clear the flag; return inside the 50 ms
debounce window; otherwise update `override_last_time` to `now` BEFORE the
confirmation delay, then emit `OV` and bump the counter only if the pin
still reads 0. -/
def process_override (now : Int) (pinAfter : Nat) (s : SBState) :
    SBState × Option String :=
  if s.override_pending then
    let s1 := { s with override_pending := false }
    if ticksDiff now s1.button_state.override_last_time < s1.button_state.debounce_ms then
      (s1, none)
    else
      let s2 := { s1 with
        button_state := { s1.button_state with override_last_time := now } }
      if pinAfter = 0 then
        ({ s2 with stats := { s2.stats with overrides := s2.stats.overrides + 1 } },
          some "OV\n")
      else (s2, none)
  else (s, none)

/-- `process_pump_stop()` (identical in V1.5 and V1.3): same shape as
`process_override` with `pump_last_time`, the `PS` message and the
`pump_stops` counter. -/
def process_pump_stop (now : Int) (pinAfter : Nat) (s : SBState) :
    SBState × Option String :=
  if s.pump_pending then
    let s1 := { s with pump_pending := false }
    if ticksDiff now s1.button_state.pump_last_time < s1.button_state.debounce_ms then
      (s1, none)
    else
      let s2 := { s1 with
        button_state := { s1.button_state with pump_last_time := now } }
      if pinAfter = 0 then
        ({ s2 with stats := { s2.stats with pump_stops := s2.stats.pump_stops + 1 } },
          some "PS\n")
      else (s2, none)
  else (s, none)

/-- `system_reset()` (identical in V1.5 and V1.3 on `SBState`).  The source
sets `interrupt_lock := True`, clears the three pending flags, re-snapshots
`last_a` from `pin_a` (`pinA` here) and `last_time` from `time.ticks_us()`
(`now` here), zeroes `interrupt_count`, runs `periodic_cleanup()` (which
touches only the GC and the UART RX buffer, not this state), sleeps 10 ms,
and finally clears the lock.  The returned record is the state after the
final `interrupt_lock = False`. -/
def system_reset (pinA : Nat) (now : Int) (s : SBState) : SBState :=
  { s with
    interrupt_lock := false
    encoder_pending := false
    override_pending := false
    pump_pending := false
    encoder_state :=
      { s.encoder_state with last_a := pinA, last_time := now,
                             interrupt_count := 0 } }

/-- Model of the UART collaborator.  `rx` is the buffered inbound byte
list; `healthy` says whether `serial.write` succeeds (an unhealthy UART
makes any serial operation raise); `tx` is the transcript of successfully
transmitted messages; `healthChecks` counts invocations of
`ensure_uart_alive` (instrumentation, so that a theorem can say the health
check was or was not triggered). -/
structure Uart where
  rx : List Nat
  healthy : Bool
  tx : List String
  healthChecks : Nat
  deriving DecidableEq

/-- `ensure_uart_alive()` (V1.5 only).  Probes with a zero-length write; on
probe failure it deinits, sleeps 50 ms, and rebuilds the UART with the
original configuration.  `reinitOk` says whether that rebuild succeeds (an
environment input); a rebuilt UART starts with an empty RX buffer.  Returns
the UART and the boolean the function returns. -/
def ensure_uart_alive (reinitOk : Bool) (u : Uart) : Uart × Bool :=
  let u1 := { u with healthChecks := u.healthChecks + 1 }
  if u1.healthy then (u1, true)
  else if reinitOk then ({ u1 with rx := [], healthy := true }, true)
  else (u1, false)

/-- `safe_uart_write(message)` of V1.5.  Inside the `try`: drain every
buffered inbound byte, then `serial.write(message)` and return `True`.  If
the UART is unhealthy the serial operations raise, and the handler calls
`ensure_uart_alive()` and returns `False` — the message is dropped, never
retried or queued. -/
def safe_uart_write (reinitOk : Bool) (message : String) (u : Uart) :
    Uart × Bool :=
  if u.healthy then
    ({ u with rx := [], tx := u.tx ++ [message] }, true)
  else
    ((ensure_uart_alive reinitOk u).1, false)

namespace V13

/-- `safe_uart_write(message)` of V1.3.  Same `try` body as V1.5 (drain RX,
write, return `True`), but the `except` handler just returns `False`: V1.3
contains no `ensure_uart_alive` and performs no health check or recovery on
a write failure. -/
def safe_uart_write (message : String) (u : Uart) : Uart × Bool :=
  if u.healthy then
    ({ u with rx := [], tx := u.tx ++ [message] }, true)
  else
    (u, false)

end V13

/-- A burst of `n` encoder interrupts all arriving at tick `t` (sustained
interrupts within one rate window): `encoder_isr` applied `n` times. -/
def sustained (t : Int) : Nat → SBState → SBState
  | 0, s => s
  | n + 1, s => sustained t n (encoder_isr t s)

/-- Startup state with an override interrupt pending (used to exhibit the
button-timestamp behaviour of `process_override`). -/
def ovPendingState : SBState := { initState with override_pending := true }

/-- Startup state with both button interrupts pending. -/
def bothButtonsState : SBState :=
  { initState with override_pending := true, pump_pending := true }

/-- Startup state with an encoder interrupt pending. -/
def encPendingState : SBState := { initState with encoder_pending := true }

/-- Startup state with the interrupt lock held. -/
def lockedState : SBState := { initState with interrupt_lock := true }

/-- A state in the middle of a rate window (window opened at tick 500) whose
admission counter is saturated at `max_rate`. -/
def satMidWindowState : SBState :=
  { initState with
    encoder_state :=
      { initState.encoder_state with
        interrupt_count := 1000, last_rate_check := 500 } }

/-- A state in the middle of a rate window with a small admission count. -/
def midCountState : SBState :=
  { initState with
    encoder_state := { initState.encoder_state with interrupt_count := 5 } }

/-- A saturated rate window whose window start is tick 0. -/
def satState : SBState :=
  { initState with
    encoder_state :=
      { initState.encoder_state with interrupt_count := 1000 } }

/-- An unhealthy UART with one buffered inbound byte. -/
def uartBad : Uart := { rx := [65], healthy := false, tx := [], healthChecks := 0 }

/-- A healthy UART with two buffered inbound bytes. -/
def uartGood : Uart := { rx := [1, 2], healthy := true, tx := [], healthChecks := 0 }

/-- One in-window encoder interrupt (lock clear, window not yet expired):
the counter is incremented; if the new count is within `max_rate` the
pending flag is set, otherwise `blocked` is bumped.  Nothing else changes. -/
lemma encoder_isr_inwindow (t : Int) (s : SBState)
    (hlock : s.interrupt_lock = false)
    (hwin : ticksDiff t s.encoder_state.last_rate_check < 1000) :
    encoder_isr t s =
      if s.encoder_state.interrupt_count + 1 ≤ s.encoder_state.max_rate then
        { s with
          encoder_state :=
            { s.encoder_state with
              interrupt_count := s.encoder_state.interrupt_count + 1 },
          encoder_pending := true }
      else
        { s with
          encoder_state :=
            { s.encoder_state with
              interrupt_count := s.encoder_state.interrupt_count + 1 },
          stats := { s.stats with blocked := s.stats.blocked + 1 } } := by
  by_cases hc : s.encoder_state.interrupt_count + 1 ≤ s.encoder_state.max_rate
  · simp [encoder_isr, check_rate_limit, hlock, not_le.mpr hwin, hc]
  · simp [encoder_isr, check_rate_limit, hlock, not_le.mpr hwin, hc]

/-- A sustained burst of `n` encoder interrupts at tick `t`, entirely inside
one rate window (lock clear, `max_rate = 1000`, window not expired at `t`):
the counter advances by `n`, the window start is untouched, the lock stays
clear, and `blocked` grows by exactly the number of counter values that
exceeded 1000. -/
lemma sustained_inwindow (t : Int) (n : Nat) (s : SBState)
    (hlock : s.interrupt_lock = false)
    (hwin : ticksDiff t s.encoder_state.last_rate_check < 1000)
    (hmax : s.encoder_state.max_rate = 1000) :
    (sustained t n s).stats.blocked
        = s.stats.blocked
          + (((s.encoder_state.interrupt_count + n) - 1000)
             - (s.encoder_state.interrupt_count - 1000))
    ∧ (sustained t n s).encoder_state.last_rate_check
        = s.encoder_state.last_rate_check
    ∧ (sustained t n s).encoder_state.interrupt_count
        = s.encoder_state.interrupt_count + n
    ∧ (sustained t n s).interrupt_lock = false
    ∧ (sustained t n s).encoder_state.max_rate = 1000 := by
  induction n generalizing s with
  | zero => simp [sustained, hlock, hmax]
  | succ n ih =>
    have hstep := encoder_isr_inwindow t s hlock hwin
    rw [hmax] at hstep
    by_cases hc : s.encoder_state.interrupt_count + 1 ≤ 1000
    · rw [if_pos hc] at hstep
      have ih' := ih
        { s with
          encoder_state :=
            { s.encoder_state with
              interrupt_count := s.encoder_state.interrupt_count + 1 },
          encoder_pending := true }
        hlock hwin hmax
      show (sustained t n (encoder_isr t s)).stats.blocked = _
        ∧ (sustained t n (encoder_isr t s)).encoder_state.last_rate_check = _
        ∧ (sustained t n (encoder_isr t s)).encoder_state.interrupt_count = _
        ∧ (sustained t n (encoder_isr t s)).interrupt_lock = false
        ∧ (sustained t n (encoder_isr t s)).encoder_state.max_rate = 1000
      rw [hstep]
      refine ⟨?_, ih'.2.1, ?_, ih'.2.2.2.1, ih'.2.2.2.2⟩
      · rw [ih'.1]; simp only; omega
      · rw [ih'.2.2.1]; simp only; omega
    · rw [if_neg hc] at hstep
      have ih' := ih
        { s with
          encoder_state :=
            { s.encoder_state with
              interrupt_count := s.encoder_state.interrupt_count + 1 },
          stats := { s.stats with blocked := s.stats.blocked + 1 } }
        hlock hwin hmax
      show (sustained t n (encoder_isr t s)).stats.blocked = _
        ∧ (sustained t n (encoder_isr t s)).encoder_state.last_rate_check = _
        ∧ (sustained t n (encoder_isr t s)).encoder_state.interrupt_count = _
        ∧ (sustained t n (encoder_isr t s)).interrupt_lock = false
        ∧ (sustained t n (encoder_isr t s)).encoder_state.max_rate = 1000
      rw [hstep]
      refine ⟨?_, ih'.2.1, ?_, ih'.2.2.2.1, ih'.2.2.2.2⟩
      · rw [ih'.1]; simp only; omega
      · rw [ih'.2.2.1]; simp only; omega

/-- The tick difference of a tick with itself is zero. -/
lemma ticksDiff_self (t : Int) : ticksDiff t t = 0 := by
  simp [ticksDiff, TICKS_PERIOD]

/-- Unfolding equation of `sustained` for a successor burst length. -/
lemma sustained_succ (t : Int) (n : Nat) (s : SBState) :
    sustained t (n + 1) s = sustained t n (encoder_isr t s) := rfl

/-- An encoder message is produced only outside the debounce window. -/
lemma encoder_emit_outside (nowe : Int) (a b m : Nat) (s : SBState)
    (h : (process_encoder nowe a b m s).2 ≠ none) :
    s.encoder_state.debounce_us ≤ ticksDiff nowe s.encoder_state.last_time := by
  by_contra hlt
  push_neg at hlt
  apply h
  by_cases hp : s.encoder_pending
  · simp [process_encoder, hp, hlt]
  · simp [process_encoder, hp]

/-- When no encoder message is produced, `last_time` is unchanged. -/
lemma encoder_none_keeps_last_time (nowe : Int) (a b m : Nat) (s : SBState)
    (h : (process_encoder nowe a b m s).2 = none) :
    (process_encoder nowe a b m s).1.encoder_state.last_time
      = s.encoder_state.last_time := by
  by_cases hp : s.encoder_pending
  · by_cases hw : ticksDiff nowe s.encoder_state.last_time < s.encoder_state.debounce_us
    · simp [process_encoder, hp, hw]
    · by_cases ha : a = 1
      · exfalso
        revert h
        simp [process_encoder, hp, hw, ha]
      · simp [process_encoder, hp, hw, ha]
  · simp [process_encoder, hp]

/-- An override message is produced only outside the debounce window. -/
lemma override_emit_outside (nowb : Int) (p : Nat) (s : SBState)
    (h : (process_override nowb p s).2 ≠ none) :
    s.button_state.debounce_ms ≤ ticksDiff nowb s.button_state.override_last_time := by
  by_contra hlt
  push_neg at hlt
  apply h
  by_cases hp : s.override_pending
  · simp [process_override, hp, hlt]
  · simp [process_override, hp]

/-- Inside the debounce window, `process_override` produces nothing and
leaves the override timestamp unchanged. -/
lemma override_inwindow_frame (nowb : Int) (p : Nat) (s : SBState)
    (h : ticksDiff nowb s.button_state.override_last_time < s.button_state.debounce_ms) :
    (process_override nowb p s).2 = none
    ∧ (process_override nowb p s).1.button_state.override_last_time
        = s.button_state.override_last_time := by
  by_cases hp : s.override_pending
  · simp [process_override, hp, h]
  · simp [process_override, hp]

/-- Outside the debounce window, a pending override interrupt updates the
override timestamp to `nowb` no matter how the confirmation re-read goes. -/
lemma override_outside_updates (nowb : Int) (p : Nat) (s : SBState)
    (hp : s.override_pending = true)
    (h : s.button_state.debounce_ms ≤ ticksDiff nowb s.button_state.override_last_time) :
    (process_override nowb p s).1.button_state.override_last_time = nowb := by
  by_cases hz : p = 0
  · simp [process_override, hp, not_lt.mpr h, hz]
  · simp [process_override, hp, not_lt.mpr h, hz]

/-- A pump-stop message is produced only outside the debounce window. -/
lemma pump_emit_outside (nowb : Int) (p : Nat) (s : SBState)
    (h : (process_pump_stop nowb p s).2 ≠ none) :
    s.button_state.debounce_ms ≤ ticksDiff nowb s.button_state.pump_last_time := by
  by_contra hlt
  push_neg at hlt
  apply h
  by_cases hp : s.pump_pending
  · simp [process_pump_stop, hp, hlt]
  · simp [process_pump_stop, hp]

/-- Inside the debounce window, `process_pump_stop` produces nothing and
leaves the pump timestamp unchanged. -/
lemma pump_inwindow_frame (nowb : Int) (p : Nat) (s : SBState)
    (h : ticksDiff nowb s.button_state.pump_last_time < s.button_state.debounce_ms) :
    (process_pump_stop nowb p s).2 = none
    ∧ (process_pump_stop nowb p s).1.button_state.pump_last_time
        = s.button_state.pump_last_time := by
  by_cases hp : s.pump_pending
  · simp [process_pump_stop, hp, h]
  · simp [process_pump_stop, hp]

/-- Outside the debounce window, a pending pump-stop interrupt updates the
pump timestamp to `nowb` no matter how the confirmation re-read goes. -/
lemma pump_outside_updates (nowb : Int) (p : Nat) (s : SBState)
    (hp : s.pump_pending = true)
    (h : s.button_state.debounce_ms ≤ ticksDiff nowb s.button_state.pump_last_time) :
    (process_pump_stop nowb p s).1.button_state.pump_last_time = nowb := by
  by_cases hz : p = 0
  · simp [process_pump_stop, hp, not_lt.mpr h, hz]
  · simp [process_pump_stop, hp, not_lt.mpr h, hz]

/-- C1 counterexample: the claim says a button interrupt whose 5 ms
confirmation re-read fails leaves that button's timestamp unchanged, and
that the last-accepted timestamp is updated only when an event is emitted.
In the code, a pending override processed at tick 100 (outside the 50 ms
window, prior timestamp 0) whose confirmation re-read returns 1 emits
nothing, yet the override timestamp moves from 0 to 100. -/
theorem C1_cex_button_timestamp_on_failed_confirmation :
    (process_override 100 1 ovPendingState).2 = none
    ∧ ovPendingState.button_state.override_last_time = 0
    ∧ (process_override 100 1 ovPendingState).1.button_state.override_last_time = 100 := by
  decide

/-- C1 (amended): events are emitted only outside the debounce windows,
and the encoder's `last_time` is updated only on emission; but each
button's timestamp is updated exactly when the 50 ms debounce check
passes — before the 5 ms confirmation re-read — so a failed confirmation
still updates that button's timestamp.  An edge inside a window leaves
both the output and the timestamp of that signal unchanged. -/
theorem C1_amended_debounce_and_timestamps (nowe nowb : Int)
    (a b m pOv pPs : Nat) (s : SBState) :
    (((process_encoder nowe a b m s).2 ≠ none →
        s.encoder_state.debounce_us ≤ ticksDiff nowe s.encoder_state.last_time)
     ∧ ((process_encoder nowe a b m s).2 = none →
        (process_encoder nowe a b m s).1.encoder_state.last_time
          = s.encoder_state.last_time))
    ∧ (((process_override nowb pOv s).2 ≠ none →
        s.button_state.debounce_ms ≤ ticksDiff nowb s.button_state.override_last_time)
     ∧ (ticksDiff nowb s.button_state.override_last_time < s.button_state.debounce_ms →
        (process_override nowb pOv s).2 = none
        ∧ (process_override nowb pOv s).1.button_state.override_last_time
            = s.button_state.override_last_time)
     ∧ (s.override_pending = true →
        s.button_state.debounce_ms ≤ ticksDiff nowb s.button_state.override_last_time →
        (process_override nowb pOv s).1.button_state.override_last_time = nowb))
    ∧ (((process_pump_stop nowb pPs s).2 ≠ none →
        s.button_state.debounce_ms ≤ ticksDiff nowb s.button_state.pump_last_time)
     ∧ (ticksDiff nowb s.button_state.pump_last_time < s.button_state.debounce_ms →
        (process_pump_stop nowb pPs s).2 = none
        ∧ (process_pump_stop nowb pPs s).1.button_state.pump_last_time
            = s.button_state.pump_last_time)
     ∧ (s.pump_pending = true →
        s.button_state.debounce_ms ≤ ticksDiff nowb s.button_state.pump_last_time →
        (process_pump_stop nowb pPs s).1.button_state.pump_last_time = nowb)) :=
  ⟨⟨encoder_emit_outside nowe a b m s, encoder_none_keeps_last_time nowe a b m s⟩,
   ⟨override_emit_outside nowb pOv s,
    override_inwindow_frame nowb pOv s,
    fun hp h => override_outside_updates nowb pOv s hp h⟩,
   ⟨pump_emit_outside nowb pPs s,
    pump_inwindow_frame nowb pPs s,
    fun hp h => pump_outside_updates nowb pPs s hp h⟩⟩

/-- C1 witness: the amended theorem instantiated at tick 100 on a state with
both buttons pending and prior timestamps 0 (outside the 50 ms window). -/
theorem C1_amended_witness :
    (process_override 100 0 bothButtonsState).1.button_state.override_last_time = 100
    ∧ (process_pump_stop 100 0 bothButtonsState).1.button_state.pump_last_time = 100 :=
  ⟨(C1_amended_debounce_and_timestamps 0 100 0 0 0 0 0 bothButtonsState).2.1.2.2
      rfl (by decide),
   (C1_amended_debounce_and_timestamps 0 100 0 0 0 0 0 bothButtonsState).2.2.2.2
      rfl (by decide)⟩

/-- C3: when the encoder pending flag is processed outside the debounce
window and phase A reads 1, exactly one message is produced, namely
`+<n>\n` when phase B reads 0 and `-<n>\n` otherwise, with `<n> = 10` when
the modifier pin reads 0 (asserted, active-low) and `<n> = 1` otherwise;
when phase A reads 0 no message is produced. -/
theorem C3_encoder_rising_edge_event (now : Int) (a b m : Nat) (s : SBState)
    (hp : s.encoder_pending = true)
    (hw : s.encoder_state.debounce_us ≤ ticksDiff now s.encoder_state.last_time) :
    (a = 1 →
      (process_encoder now a b m s).2 =
        some ((if b = 0 then "+" else "-")
              ++ (if m = 0 then "10" else "1") ++ "\n"))
    ∧ (a = 0 → (process_encoder now a b m s).2 = none) := by
  constructor
  · intro ha
    subst ha
    by_cases hb : b = 0 <;> by_cases hm : m = 0 <;>
      simp [process_encoder, hp, not_lt.mpr hw, hb, hm] <;> rfl
  · intro ha
    subst ha
    simp [process_encoder, hp, not_lt.mpr hw]

/-- C3 witness: the theorem instantiated on a fresh pending state at tick
2000: phase A rising with phase B = 1 and the modifier asserted yields
exactly the message `-10\n`. -/
theorem C3_encoder_rising_edge_event_witness :
    (process_encoder 2000 1 1 0 encPendingState).2 = some "-10\n" := by
  have h := (C3_encoder_rising_edge_event 2000 1 1 0 encPendingState rfl
    (by decide)).1 rfl
  simpa using h

/-- C2 counterexample: the claim says exactly 1000 admissions succeed per
1000 ms window and the 1001st interrupt within the window is rejected and
counted as blocked.  In the code the call that opens the window admits
without incrementing the counter, so a sustained burst of 1001 interrupts
starting from the fresh startup state (window expired at tick 1000) is
admitted in full: the blocked counter stays 0. -/
theorem C2_cex_1001st_interrupt_admitted :
    (sustained 1000 1001 initState).stats.blocked = 0 := by
  have h1 : sustained 1000 1001 initState
      = sustained 1000 1000 (encoder_isr 1000 initState) := by
    rw [show (1001 : Nat) = 1000 + 1 from rfl, sustained_succ]
  have h2 : encoder_isr 1000 initState
      = { initState with
          encoder_pending := true,
          encoder_state :=
            { initState.encoder_state with last_rate_check := 1000 } } := by
    decide
  have h := sustained_inwindow 1000 1000
    { initState with
      encoder_pending := true,
      encoder_state :=
        { initState.encoder_state with last_rate_check := 1000 } }
    (by decide) (by decide) (by decide)
  rw [h1, h2, h.1]
  decide

/-- C2 (amended): a sustained burst within one rate window admits exactly
1001 interrupts — the window-opening call (which resets the counter without
counting itself) plus 1000 more; the 1002nd and later interrupts are each
rejected, each rejection increments the blocked counter, and a rejected
interrupt never sets the encoder pending flag (the rejection step changes
only `interrupt_count` and `blocked`). -/
theorem C2_amended_1001_admissions (t : Int) (n : Nat) (s : SBState)
    (hlock : s.interrupt_lock = false)
    (hexp : ticksDiff t s.encoder_state.last_rate_check ≥ 1000)
    (hmax : s.encoder_state.max_rate = 1000) :
    (sustained t (n + 1) s).stats.blocked
        = s.stats.blocked + ((n + 1) - min (n + 1) 1001)
    ∧ ∀ s2 : SBState, s2.interrupt_lock = false →
        s2.encoder_state.max_rate = 1000 →
        ticksDiff t s2.encoder_state.last_rate_check < 1000 →
        1000 ≤ s2.encoder_state.interrupt_count →
        encoder_isr t s2
          = { s2 with
              encoder_state :=
                { s2.encoder_state with
                  interrupt_count := s2.encoder_state.interrupt_count + 1 },
              stats := { s2.stats with blocked := s2.stats.blocked + 1 } } := by
  constructor
  · have hstep : encoder_isr t s
        = { s with
            encoder_pending := true,
            encoder_state :=
              { s.encoder_state with
                interrupt_count := 0, last_rate_check := t } } := by
      simp [encoder_isr, check_rate_limit, hexp, hlock]
    have hu := sustained_succ t n s
    have h := sustained_inwindow t n
      { s with
        encoder_pending := true,
        encoder_state :=
          { s.encoder_state with
            interrupt_count := 0, last_rate_check := t } }
      hlock (by simpa using ticksDiff_self t ▸ (by norm_num : (0 : Int) < 1000))
      (by simpa using hmax)
    rw [hu, hstep, h.1]
    simp only
    omega
  · intro s2 h1 h2 h3 h4
    rw [encoder_isr_inwindow t s2 h1 h3, h2, if_neg (by omega)]

/-- C2 witness: the amended theorem instantiated at tick 1000 on the
startup state (a 4-interrupt burst admits everything), and its rejection
clause instantiated on a saturated mid-window state, where one more
interrupt at tick 1000 only bumps the counter and the blocked statistic. -/
theorem C2_amended_1001_admissions_witness :
    (sustained 1000 4 initState).stats.blocked = 0
    ∧ encoder_isr 1000 satMidWindowState
        = { satMidWindowState with
            encoder_state :=
              { satMidWindowState.encoder_state with
                interrupt_count := satMidWindowState.encoder_state.interrupt_count + 1 },
            stats :=
              { satMidWindowState.stats with
                blocked := satMidWindowState.stats.blocked + 1 } } := by
  have h := C2_amended_1001_admissions 1000 3 initState rfl (by decide) rfl
  exact ⟨h.1.trans (by decide),
         h.2 satMidWindowState rfl rfl (by decide) (by decide)⟩

/-- C4 counterexample: the claim says each handler, when the lock is clear
and (for the encoder) the rate limiter admits, performs exactly one write
to shared state — its pending flag — and no other state mutation.  In the
code `check_rate_limit` runs inside the encoder handler and mutates
`encoder_state`: from a mid-window state with `interrupt_count = 5`, an
admitted interrupt at tick 500 sets the pending flag AND changes the
counter to 6. -/
theorem C4_cex_isr_mutates_rate_state :
    midCountState.interrupt_lock = false
    ∧ (check_rate_limit 500 midCountState.encoder_state).2 = true
    ∧ (encoder_isr 500 midCountState).encoder_pending = true
    ∧ (encoder_isr 500 midCountState).encoder_state.interrupt_count
        ≠ midCountState.encoder_state.interrupt_count := by
  decide

/-- C4 (amended): with the lock clear, the button handlers write exactly
their own pending flag and nothing else; the encoder handler, when the
rate limiter admits, sets its pending flag and additionally applies
exactly the rate-limiter state update of `check_rate_limit` — everything
else (other flags, lock, button state, stats) is untouched, and no handler
performs I/O, blocking or debounce work. -/
theorem C4_amended_isr_writes (now : Int) (s : SBState)
    (h : s.interrupt_lock = false) :
    override_isr s = { s with override_pending := true }
    ∧ pump_stop_isr s = { s with pump_pending := true }
    ∧ ((check_rate_limit now s.encoder_state).2 = true →
        encoder_isr now s
          = { s with
              encoder_pending := true,
              encoder_state := (check_rate_limit now s.encoder_state).1 }) := by
  refine ⟨by simp [override_isr, h], by simp [pump_stop_isr, h], ?_⟩
  intro hadm
  simp [encoder_isr, h, hadm]

/-- C4 witness: the amended theorem instantiated on the startup state with
an encoder interrupt at tick 1500 (window expired, so the limiter admits). -/
theorem C4_amended_isr_writes_witness :
    override_isr initState = { initState with override_pending := true }
    ∧ pump_stop_isr initState = { initState with pump_pending := true }
    ∧ encoder_isr 1500 initState
        = { initState with
            encoder_pending := true,
            encoder_state := (check_rate_limit 1500 initState.encoder_state).1 } := by
  have h := C4_amended_isr_writes 1500 initState rfl
  exact ⟨h.1, h.2.1, h.2.2 (by decide)⟩

/-- C5: while the interrupt lock is held, no pending flag transitions from
false to true — each of the three interrupt handlers leaves all three
pending flags exactly as they were. -/
theorem C5_lock_freezes_pending (now : Int) (s : SBState)
    (h : s.interrupt_lock = true) :
    ((encoder_isr now s).encoder_pending = s.encoder_pending
     ∧ (encoder_isr now s).override_pending = s.override_pending
     ∧ (encoder_isr now s).pump_pending = s.pump_pending)
    ∧ ((override_isr s).encoder_pending = s.encoder_pending
     ∧ (override_isr s).override_pending = s.override_pending
     ∧ (override_isr s).pump_pending = s.pump_pending)
    ∧ ((pump_stop_isr s).encoder_pending = s.encoder_pending
     ∧ (pump_stop_isr s).override_pending = s.override_pending
     ∧ (pump_stop_isr s).pump_pending = s.pump_pending) := by
  simp [encoder_isr, override_isr, pump_stop_isr, h]

/-- C5 witness: the theorem instantiated on a locked startup state, for an
encoder interrupt arriving at tick 2000. -/
theorem C5_lock_freezes_pending_witness :
    ((encoder_isr 2000 lockedState).encoder_pending = lockedState.encoder_pending
     ∧ (encoder_isr 2000 lockedState).override_pending = lockedState.override_pending
     ∧ (encoder_isr 2000 lockedState).pump_pending = lockedState.pump_pending)
    ∧ ((override_isr lockedState).encoder_pending = lockedState.encoder_pending
     ∧ (override_isr lockedState).override_pending = lockedState.override_pending
     ∧ (override_isr lockedState).pump_pending = lockedState.pump_pending)
    ∧ ((pump_stop_isr lockedState).encoder_pending = lockedState.encoder_pending
     ∧ (pump_stop_isr lockedState).override_pending = lockedState.override_pending
     ∧ (pump_stop_isr lockedState).pump_pending = lockedState.pump_pending) :=
  C5_lock_freezes_pending 2000 lockedState rfl

/-- C6: the admission check keeps a counter and a window-start timestamp;
if at least 1000 ms elapsed since window start it resets the counter to 0,
moves the window start to now and admits, and otherwise it increments the
counter, keeps the window start, and admits exactly when the incremented
counter is at most the max rate of 1000. -/
theorem C6_rate_limiter_behaviour (now : Int) (es : EncoderState)
    (hm : es.max_rate = 1000) :
    (ticksDiff now es.last_rate_check ≥ 1000 →
      check_rate_limit now es
        = ({ es with interrupt_count := 0, last_rate_check := now }, true))
    ∧ (ticksDiff now es.last_rate_check < 1000 →
      (check_rate_limit now es).1.interrupt_count = es.interrupt_count + 1
      ∧ (check_rate_limit now es).1.last_rate_check = es.last_rate_check
      ∧ ((check_rate_limit now es).2 = true ↔ es.interrupt_count + 1 ≤ 1000)) := by
  constructor
  · intro h; simp [check_rate_limit, h]
  · intro h; simp [check_rate_limit, not_le.mpr h, hm]

/-- C6 witness: the theorem instantiated on the startup encoder state, once
at tick 1500 (window expired: reset and admit) and once at tick 500
(in-window: increment and admit since 1 ≤ 1000). -/
theorem C6_rate_limiter_behaviour_witness :
    check_rate_limit 1500 initState.encoder_state
      = ({ initState.encoder_state with
            interrupt_count := 0, last_rate_check := 1500 }, true)
    ∧ (check_rate_limit 500 initState.encoder_state).1.interrupt_count = 1
    ∧ ((check_rate_limit 500 initState.encoder_state).2 = true ↔ 0 + 1 ≤ 1000) :=
  ⟨(C6_rate_limiter_behaviour 1500 initState.encoder_state rfl).1 (by decide),
   ((C6_rate_limiter_behaviour 500 initState.encoder_state rfl).2 (by decide)).1,
   ((C6_rate_limiter_behaviour 500 initState.encoder_state rfl).2 (by decide)).2.2⟩

/-- C7: a pending button interrupt processed outside the 50 ms debounce
window emits exactly one `OV\n` (respectively `PS\n`) precisely when the
pin re-read after the 5 ms confirmation delay still returns 0; a glitch
that reads back high yields no emission. -/
theorem C7_button_confirmation (now : Int) (pOv pPs : Nat) (s : SBState)
    (hd : s.button_state.debounce_ms = 50)
    (hov : s.override_pending = true)
    (hps : s.pump_pending = true)
    (hwo : (50 : Int) ≤ ticksDiff now s.button_state.override_last_time)
    (hwp : (50 : Int) ≤ ticksDiff now s.button_state.pump_last_time) :
    (process_override now pOv s).2 = (if pOv = 0 then some "OV\n" else none)
    ∧ (process_pump_stop now pPs s).2 = (if pPs = 0 then some "PS\n" else none) := by
  constructor
  · by_cases h : pOv = 0 <;>
      simp [process_override, hov, hd, not_lt.mpr hwo, h]
  · by_cases h : pPs = 0 <;>
      simp [process_pump_stop, hps, hd, not_lt.mpr hwp, h]

/-- C7 witness: the theorem instantiated at tick 100 on a state with both
buttons pending: a confirmed override (pin 0 after the delay) emits `OV\n`
while a pump-stop glitch (pin 1 after the delay) emits nothing. -/
theorem C7_button_confirmation_witness :
    (process_override 100 0 bothButtonsState).2 = some "OV\n"
    ∧ (process_pump_stop 100 1 bothButtonsState).2 = none := by
  have h := C7_button_confirmation 100 0 1 bothButtonsState rfl rfl rfl
    (by decide) (by decide)
  exact ⟨h.1.trans (by decide), h.2.trans (by decide)⟩

/-- C8: System Reset is idempotent — running `system_reset` twice in
succession with no intervening interrupts leaves the same observable state
(three pending flags false, `interrupt_lock` false, encoder interrupt
counter zero) as running it once. -/
theorem C8_system_reset_idempotent (p1 p2 : Nat) (t1 t2 : Int) (s : SBState) :
    ((system_reset p2 t2 (system_reset p1 t1 s)).encoder_pending
        = (system_reset p1 t1 s).encoder_pending
     ∧ (system_reset p2 t2 (system_reset p1 t1 s)).override_pending
        = (system_reset p1 t1 s).override_pending
     ∧ (system_reset p2 t2 (system_reset p1 t1 s)).pump_pending
        = (system_reset p1 t1 s).pump_pending
     ∧ (system_reset p2 t2 (system_reset p1 t1 s)).interrupt_lock
        = (system_reset p1 t1 s).interrupt_lock
     ∧ (system_reset p2 t2 (system_reset p1 t1 s)).encoder_state.interrupt_count
        = (system_reset p1 t1 s).encoder_state.interrupt_count)
    ∧ ((system_reset p1 t1 s).encoder_pending = false
     ∧ (system_reset p1 t1 s).override_pending = false
     ∧ (system_reset p1 t1 s).pump_pending = false
     ∧ (system_reset p1 t1 s).interrupt_lock = false
     ∧ (system_reset p1 t1 s).encoder_state.interrupt_count = 0) := by
  simp [system_reset]

/-- C9 counterexample: the claim says that on any write failure the send
operation triggers the health check.  The V1.3 revision of
`safe_uart_write` has no health check at all: on an unhealthy UART it
returns false and the health-check invocation count stays 0. -/
theorem C9_cex_v13_failure_without_health_check :
    uartBad.healthy = false
    ∧ (V13.safe_uart_write "OV\n" uartBad).2 = false
    ∧ (V13.safe_uart_write "OV\n" uartBad).1.healthChecks = 0 := by
  decide

/-- C9 (amended): both revisions of `safe_uart_write` first drain the
buffered inbound bytes, then write and return true on success; on a write
failure both return false and neither retries nor queues the message (the
transmitted-message transcript is untouched), but only V1.5 triggers the
health check `ensure_uart_alive` — V1.3 performs no health check on
failure. -/
theorem C9_amended_send_behaviour (m : String) (r : Bool) (u : Uart) :
    (u.healthy = true →
      safe_uart_write r m u = ({ u with rx := [], tx := u.tx ++ [m] }, true)
      ∧ V13.safe_uart_write m u = ({ u with rx := [], tx := u.tx ++ [m] }, true))
    ∧ (u.healthy = false →
      ((safe_uart_write r m u).2 = false
       ∧ (safe_uart_write r m u).1.healthChecks = u.healthChecks + 1
       ∧ (safe_uart_write r m u).1.tx = u.tx)
      ∧ ((V13.safe_uart_write m u).2 = false
       ∧ (V13.safe_uart_write m u).1.healthChecks = u.healthChecks
       ∧ (V13.safe_uart_write m u).1.tx = u.tx)) := by
  constructor
  · intro h
    constructor <;> simp [safe_uart_write, V13.safe_uart_write, h]
  · intro h
    cases r <;>
      simp [safe_uart_write, V13.safe_uart_write, ensure_uart_alive, h]

/-- C9 witness: the amended theorem instantiated on a healthy UART with two
buffered inbound bytes (drain and transmit) and on an unhealthy UART
(failure: V1.5 runs the health check once, V1.3 does not). -/
theorem C9_amended_send_behaviour_witness :
    (safe_uart_write true "OK\n" uartGood
        = ({ uartGood with rx := [], tx := uartGood.tx ++ ["OK\n"] }, true)
     ∧ V13.safe_uart_write "OK\n" uartGood
        = ({ uartGood with rx := [], tx := uartGood.tx ++ ["OK\n"] }, true))
    ∧ ((safe_uart_write true "OK\n" uartBad).2 = false
     ∧ (safe_uart_write true "OK\n" uartBad).1.healthChecks = uartBad.healthChecks + 1
     ∧ (V13.safe_uart_write "OK\n" uartBad).1.healthChecks = uartBad.healthChecks) :=
  ⟨(C9_amended_send_behaviour "OK\n" true uartGood).1 rfl,
   ((C9_amended_send_behaviour "OK\n" true uartBad).2 rfl).1.1,
   ((C9_amended_send_behaviour "OK\n" true uartBad).2 rfl).1.2.1,
   ((C9_amended_send_behaviour "OK\n" true uartBad).2 rfl).2.2.1⟩

/-- C10: `system_reset` zeroes the encoder interrupt counter but leaves the
rate window start `last_rate_check`, both button timestamps, and all stats
counters unchanged.  Concretely, resetting during a saturated window whose
start is tick 0 does not open a fresh admission window (the first encoder
interrupt at tick 500 after the reset leaves the window start at 0), and a
burst of 1001 interrupts at tick 500 right after the reset still has its
last interrupt rate-limit rejected (blocked rises to 1). -/
theorem C10_reset_leaves_rate_window (p : Nat) (t : Int) (s : SBState) :
    ((system_reset p t s).encoder_state.interrupt_count = 0
     ∧ (system_reset p t s).encoder_state.last_rate_check
        = s.encoder_state.last_rate_check
     ∧ (system_reset p t s).button_state = s.button_state
     ∧ (system_reset p t s).stats = s.stats)
    ∧ ((encoder_isr 500 (system_reset 0 0 satState)).encoder_state.last_rate_check
        = satState.encoder_state.last_rate_check
     ∧ (sustained 500 1001 (system_reset 0 0 satState)).stats.blocked = 1) := by
  refine ⟨by simp [system_reset], by decide, ?_⟩
  have h := sustained_inwindow 500 1001 (system_reset 0 0 satState)
    (by decide) (by decide) (by decide)
  rw [h.1]
  decide
